import Mathlib

/-!
Verification of the default pod-lifecycle state machine of
`crates/kubelet/src/state/default.rs`.

The file embeds the ten `state!` declarations as a Lean transition
function over an inductive state-identity type, together with the
per-state status-patch builders, and proves the specification's claims
about the lifecycle graph, the failure routing, and the produced patch
documents.
-/

namespace Krustlet

/-- Modelled from the spec: the workload phase enumeration `Phase` lives in
`crate::pod`, outside the provided source file; §2 and §6 of the spec fix it
to the four values Pending, Running, Succeeded, Failed. -/
inductive Phase where
  | Pending
  | Running
  | Succeeded
  | Failed
deriving DecidableEq, Repr

/-- Modelled from the spec: §6 serialises a phase into the status document as
one of the strings "Pending", "Running", "Succeeded", "Failed". -/
def Phase.serialize : Phase → String
  | .Pending => "Pending"
  | .Running => "Running"
  | .Succeeded => "Succeeded"
  | .Failed => "Failed"

/-- Modelled from the spec: the `Pod` type lives in `crate::pod`, outside the
provided source file; §6 says the only Pod field this core reads is a stable
human-readable name (used for logging in the step functions). -/
structure Pod where
  name : String
deriving DecidableEq, Repr

/-- The identity of a state node: the ten states declared by the `state!`
invocations in `default.rs`. -/
inductive SName where
  | Registered
  | ImagePull
  | ImagePullBackoff
  | VolumeMount
  | VolumeMountBackoff
  | Starting
  | Running
  | Error
  | Terminated
  | Finished
deriving DecidableEq, Repr

/-- The list of all declared states. -/
def declaredStates : List SName :=
  [.Registered, .ImagePull, .ImagePullBackoff, .VolumeMount, .VolumeMountBackoff,
   .Starting, .Running, .Error, .Terminated, .Finished]

/-- The name of a state, as the `state!` macro's `{:?}` debug identity renders
it and as the spec's §4.2 table labels the row. -/
def SName.stateName : SName → String
  | .Registered => "Registered"
  | .ImagePull => "ImagePull"
  | .ImagePullBackoff => "ImagePullBackoff"
  | .VolumeMount => "VolumeMount"
  | .VolumeMountBackoff => "VolumeMountBackoff"
  | .Starting => "Starting"
  | .Running => "Running"
  | .Error => "Error"
  | .Terminated => "Terminated"
  | .Finished => "Finished"

/-- A structured JSON-shaped value, enough to express the literal documents
built by the `serde_json::json!` blocks in `default.rs`. -/
inductive Json where
  | str (s : String)
  | arr (elems : List Json)
  | obj (fields : List (String × Json))

/-- Field lookup in a JSON object; `none` on non-objects or missing keys. -/
def Json.getField : Json → String → Option Json
  | .obj fields, k => fields.lookup k
  | .str _, _ => none
  | .arr _, _ => none

/-- The `Transition` result type of a step function (`crate::state`):
advance along the success edge, route along the error edge, or complete the
machine with a final result. `ε` is the opaque error-payload type
(`anyhow::Error` in the source). -/
inductive Transition (ε : Type) where
  | Advance (next : SName)
  | Error (next : SName)
  | Complete (result : Except ε Unit)

/-- The `DefaultStateProvider` capability set: the eight lifecycle hooks, each
taking a read-only Pod and returning success or an error payload.  The
asynchronous suspension of the source's hooks is outside this embedding; a
hook here is its observable outcome per invocation. -/
structure DefaultStateProvider (ε : Type) where
  registered : Pod → Except ε Unit
  image_pull : Pod → Except ε Unit
  image_pull_backoff : Pod → Except ε Unit
  volume_mount : Pod → Except ε Unit
  volume_mount_backoff : Pod → Except ε Unit
  starting : Pod → Except ε Unit
  running : Pod → Except ε Unit
  error : Pod → Except ε Unit

/-- The statically declared advance target of each state: the third argument
of each `state!` invocation in `default.rs` (for the two terminal states the
declaration names the state itself). -/
def advanceTarget : SName → SName
  | .Registered => .ImagePull
  | .ImagePull => .VolumeMount
  | .ImagePullBackoff => .ImagePull
  | .VolumeMount => .Starting
  | .VolumeMountBackoff => .VolumeMount
  | .Starting => .Running
  | .Running => .Finished
  | .Error => .Starting
  | .Terminated => .Terminated
  | .Finished => .Finished

/-- The statically declared error target of each state: the fourth argument
of each `state!` invocation in `default.rs`. -/
def errorTarget : SName → SName
  | .Registered => .Error
  | .ImagePull => .ImagePullBackoff
  | .ImagePullBackoff => .ImagePullBackoff
  | .VolumeMount => .VolumeMountBackoff
  | .VolumeMountBackoff => .VolumeMountBackoff
  | .Starting => .Error
  | .Running => .Error
  | .Error => .Error
  | .Terminated => .Terminated
  | .Finished => .Finished

/-- The step function of each state, transcribed from the step blocks of the
ten `state!` invocations in `default.rs`: invoke the matching hook; on `Ok`
return `Ok(Transition::Advance(..))`, on `Err` log and return
`Ok(Transition::Error(..))`; the two terminal states unconditionally return
`Ok(Transition::Complete(Ok(())))`.  Logging is a side effect with no bearing
on the returned value and is not modelled. -/
def step {ε : Type} (s : SName) (provider : DefaultStateProvider ε) (pod : Pod) :
    Except ε (Transition ε) :=
  match s with
  | .Registered =>
      match provider.registered pod with
      | .ok _ => .ok (.Advance .ImagePull)
      | .error _ => .ok (.Error .Error)
  | .ImagePull =>
      match provider.image_pull pod with
      | .ok _ => .ok (.Advance .VolumeMount)
      | .error _ => .ok (.Error .ImagePullBackoff)
  | .ImagePullBackoff =>
      match provider.image_pull_backoff pod with
      | .ok _ => .ok (.Advance .ImagePull)
      | .error _ => .ok (.Error .ImagePullBackoff)
  | .VolumeMount =>
      match provider.volume_mount pod with
      | .ok _ => .ok (.Advance .Starting)
      | .error _ => .ok (.Error .VolumeMountBackoff)
  | .VolumeMountBackoff =>
      match provider.volume_mount_backoff pod with
      | .ok _ => .ok (.Advance .VolumeMount)
      | .error _ => .ok (.Error .VolumeMountBackoff)
  | .Starting =>
      match provider.starting pod with
      | .ok _ => .ok (.Advance .Running)
      | .error _ => .ok (.Error .Error)
  | .Running =>
      match provider.running pod with
      | .ok _ => .ok (.Advance .Finished)
      | .error _ => .ok (.Error .Error)
  | .Error =>
      match provider.error pod with
      | .ok _ => .ok (.Advance .Starting)
      | .error _ => .ok (.Error .Error)
  | .Terminated => .ok (.Complete (.ok ()))
  | .Finished => .ok (.Complete (.ok ()))

/-- The hook a non-terminal state's step function invokes (its outcome on the
given pod).  `Terminated` and `Finished` invoke no hook; for them this helper
returns a vacuous success and theorems exclude them by hypothesis. -/
def hookOf {ε : Type} (s : SName) (provider : DefaultStateProvider ε) (pod : Pod) :
    Except ε Unit :=
  match s with
  | .Registered => provider.registered pod
  | .ImagePull => provider.image_pull pod
  | .ImagePullBackoff => provider.image_pull_backoff pod
  | .VolumeMount => provider.volume_mount pod
  | .VolumeMountBackoff => provider.volume_mount_backoff pod
  | .Starting => provider.starting pod
  | .Running => provider.running pod
  | .Error => provider.error pod
  | .Terminated => .ok ()
  | .Finished => .ok ()

/-- Builds the literal status-patch document of a state, transcribed from the
`serde_json::json!` block of its `state!` invocation; wrapped in `Ok` exactly
as the source wraps the built value.  The block reads no field of `pod`. -/
def status (s : SName) (_pod : Pod) : Except String Json :=
  match s with
  | .Registered =>
      .ok (.obj [("metadata", .obj [("resourceVersion", .str "")]),
        ("status", .obj [("phase", .str (Phase.serialize .Pending)),
          ("reason", .str "Registered"),
          ("containerStatuses", .arr []),
          ("initContainerStatuses", .arr [])])])
  | .ImagePull =>
      .ok (.obj [("metadata", .obj [("resourceVersion", .str "")]),
        ("status", .obj [("phase", .str (Phase.serialize .Pending)),
          ("reason", .str "ImagePull"),
          ("containerStatuses", .arr []),
          ("initContainerStatuses", .arr [])])])
  | .ImagePullBackoff =>
      .ok (.obj [("metadata", .obj [("resourceVersion", .str "")]),
        ("status", .obj [("phase", .str (Phase.serialize .Pending)),
          ("reason", .str "ImagePullBackoff"),
          ("containerStatuses", .arr []),
          ("initContainerStatuses", .arr [])])])
  | .VolumeMount =>
      .ok (.obj [("metadata", .obj [("resourceVersion", .str "")]),
        ("status", .obj [("phase", .str (Phase.serialize .Pending)),
          ("reason", .str "VolumeMount"),
          ("containerStatuses", .arr []),
          ("initContainerStatuses", .arr [])])])
  | .VolumeMountBackoff =>
      .ok (.obj [("metadata", .obj [("resourceVersion", .str "")]),
        ("status", .obj [("phase", .str (Phase.serialize .Pending)),
          ("reason", .str "VolumeMountBackoff"),
          ("containerStatuses", .arr []),
          ("initContainerStatuses", .arr [])])])
  | .Starting =>
      .ok (.obj [("metadata", .obj [("resourceVersion", .str "")]),
        ("status", .obj [("phase", .str (Phase.serialize .Pending)),
          ("reason", .str "Starting"),
          ("containerStatuses", .arr []),
          ("initContainerStatuses", .arr [])])])
  | .Running =>
      .ok (.obj [("metadata", .obj [("resourceVersion", .str "")]),
        ("status", .obj [("phase", .str (Phase.serialize .Running)),
          ("reason", .str "Running"),
          ("containerStatuses", .arr []),
          ("initContainerStatuses", .arr [])])])
  | .Error =>
      .ok (.obj [("metadata", .obj [("resourceVersion", .str "")]),
        ("status", .obj [("phase", .str (Phase.serialize .Failed)),
          ("reason", .str "Error"),
          ("containerStatuses", .arr []),
          ("initContainerStatuses", .arr [])])])
  | .Terminated =>
      .ok (.obj [("metadata", .obj [("resourceVersion", .str "")]),
        ("status", .obj [("phase", .str (Phase.serialize .Failed)),
          ("reason", .str "Failed"),
          ("containerStatuses", .arr []),
          ("initContainerStatuses", .arr [])])])
  | .Finished =>
      .ok (.obj [("metadata", .obj [("resourceVersion", .str "")]),
        ("status", .obj [("phase", .str (Phase.serialize .Succeeded)),
          ("reason", .str "Failed"),
          ("containerStatuses", .arr []),
          ("initContainerStatuses", .arr [])])])

/-- The `phase` field of the document a state's status function produces. -/
def statusPhaseField (s : SName) (pod : Pod) : Option Json :=
  match status s pod with
  | .ok doc => (doc.getField "status").bind (fun st => st.getField "phase")
  | .error _ => none

/-- The `reason` field of the document a state's status function produces. -/
def statusReasonField (s : SName) (pod : Pod) : Option Json :=
  match status s pod with
  | .ok doc => (doc.getField "status").bind (fun st => st.getField "reason")
  | .error _ => none

/-- Modelled from the spec: the phase column of the §4.2 table, kept separate
from the source-derived `status` so the two can be compared. -/
def specPhaseTable : SName → Phase
  | .Registered => .Pending
  | .ImagePull => .Pending
  | .ImagePullBackoff => .Pending
  | .VolumeMount => .Pending
  | .VolumeMountBackoff => .Pending
  | .Starting => .Pending
  | .Running => .Running
  | .Error => .Failed
  | .Terminated => .Failed
  | .Finished => .Succeeded

/-- Modelled from the spec: the driver contract of §4.4 (the driver itself is
generic infrastructure outside the provided source file): starting from a
state, repeatedly call the current state's step; on `Advance` or `Error`
replace the current state and continue; on `Complete(result)` stop and
surface the result.  Fuel bounds the number of step calls; the returned list
is the sequence of states whose step ran, and the option is the surfaced
final result when the machine completed within the fuel. -/
def driveTrace {ε : Type} (provider : DefaultStateProvider ε) (pod : Pod) :
    Nat → SName → List SName × Option (Except ε Unit)
  | 0, _ => ([], none)
  | fuel + 1, s =>
      match step s provider pod with
      | .ok (.Advance next) =>
          let r := driveTrace provider pod fuel next
          (s :: r.1, r.2)
      | .ok (.Error next) =>
          let r := driveTrace provider pod fuel next
          (s :: r.1, r.2)
      | .ok (.Complete result) => ([s], some result)
      | .error _ => ([s], none)

/-- A capability set whose eight hooks all succeed immediately, used as a
concrete instance in witnesses. -/
def allOkProvider : DefaultStateProvider Unit where
  registered := fun _ => .ok ()
  image_pull := fun _ => .ok ()
  image_pull_backoff := fun _ => .ok ()
  volume_mount := fun _ => .ok ()
  volume_mount_backoff := fun _ => .ok ()
  starting := fun _ => .ok ()
  running := fun _ => .ok ()
  error := fun _ => .ok ()

/-- A capability set whose eight hooks all fail, used as a concrete instance
in witnesses. -/
def failingProvider : DefaultStateProvider Unit where
  registered := fun _ => .error ()
  image_pull := fun _ => .error ()
  image_pull_backoff := fun _ => .error ()
  volume_mount := fun _ => .error ()
  volume_mount_backoff := fun _ => .error ()
  starting := fun _ => .error ()
  running := fun _ => .error ()
  error := fun _ => .error ()

/-- A concrete workload instance used in witnesses. -/
def samplePod : Pod := ⟨"test-pod"⟩

/-- Helper: when the state's hook fails, the step function returns
`Ok(Transition::Error(..))` at the statically declared error target. -/
theorem step_of_hook_error {ε : Type} (s : SName) (provider : DefaultStateProvider ε)
    (pod : Pod) (e : ε) (h : hookOf s provider pod = .error e) :
    step s provider pod = .ok (.Error (errorTarget s)) := by
  cases s <;> simp_all [hookOf, step, errorTarget]

/-- Helper: when the state's hook succeeds and the state is not terminal, the
step function returns `Ok(Transition::Advance(..))` at the statically declared
advance target. -/
theorem step_of_hook_ok {ε : Type} (s : SName) (provider : DefaultStateProvider ε)
    (pod : Pod) (h : hookOf s provider pod = .ok ())
    (h1 : s ≠ SName.Terminated) (h2 : s ≠ SName.Finished) :
    step s provider pod = .ok (.Advance (advanceTarget s)) := by
  cases s <;> simp_all [hookOf, step, advanceTarget]

/-- Helper: one driver iteration on a step that advances. -/
theorem driveTrace_advance {ε : Type} (provider : DefaultStateProvider ε) (pod : Pod)
    (fuel : Nat) (s next : SName) (h : step s provider pod = .ok (.Advance next)) :
    driveTrace provider pod (fuel + 1) s =
      (s :: (driveTrace provider pod fuel next).1, (driveTrace provider pod fuel next).2) := by
  simp [driveTrace, h]

/-- Helper: one driver iteration on a step that completes. -/
theorem driveTrace_complete {ε : Type} (provider : DefaultStateProvider ε) (pod : Pod)
    (fuel : Nat) (s : SName) (r : Except ε Unit)
    (h : step s provider pod = .ok (.Complete r)) :
    driveTrace provider pod (fuel + 1) s = ([s], some r) := by
  simp [driveTrace, h]

/-- Claim C1: for every capability set in which all eight hooks return success
on every invocation, the machine started in `Registered` takes the advance
edge at each step and passes through exactly
`Registered, ImagePull, VolumeMount, Starting, Running, Finished`, with
`Finished` returning `Complete(Ok(()))`. -/
theorem success_path_end_to_end {ε : Type} (provider : DefaultStateProvider ε) (pod : Pod)
    (hreg : ∀ q, provider.registered q = .ok ())
    (himg : ∀ q, provider.image_pull q = .ok ())
    (himgb : ∀ q, provider.image_pull_backoff q = .ok ())
    (hvol : ∀ q, provider.volume_mount q = .ok ())
    (hvolb : ∀ q, provider.volume_mount_backoff q = .ok ())
    (hstart : ∀ q, provider.starting q = .ok ())
    (hrun : ∀ q, provider.running q = .ok ())
    (herr : ∀ q, provider.error q = .ok ())
    (fuel : Nat) (hfuel : 6 ≤ fuel) :
    driveTrace provider pod fuel SName.Registered =
      ([SName.Registered, SName.ImagePull, SName.VolumeMount, SName.Starting,
        SName.Running, SName.Finished], some (.ok ())) := by
  have s1 : step SName.Registered provider pod = .ok (.Advance SName.ImagePull) := by
    simp [step, hreg pod]
  have s2 : step SName.ImagePull provider pod = .ok (.Advance SName.VolumeMount) := by
    simp [step, himg pod]
  have s3 : step SName.VolumeMount provider pod = .ok (.Advance SName.Starting) := by
    simp [step, hvol pod]
  have s4 : step SName.Starting provider pod = .ok (.Advance SName.Running) := by
    simp [step, hstart pod]
  have s5 : step SName.Running provider pod = .ok (.Advance SName.Finished) := by
    simp [step, hrun pod]
  have s6 : step SName.Finished provider pod = .ok (.Complete (.ok ())) := rfl
  obtain ⟨k, rfl⟩ : ∃ k, fuel = (((((k + 1) + 1) + 1) + 1) + 1) + 1 :=
    ⟨fuel - 6, by omega⟩
  rw [driveTrace_advance _ _ _ _ _ s1, driveTrace_advance _ _ _ _ _ s2,
    driveTrace_advance _ _ _ _ _ s3, driveTrace_advance _ _ _ _ _ s4,
    driveTrace_advance _ _ _ _ _ s5, driveTrace_complete _ _ _ _ _ s6]

/-- Witness for C1: the all-success capability set on a concrete pod with
fuel 6 produces exactly the specified sequence completing with `Ok(())`. -/
theorem success_path_end_to_end_witness :
    driveTrace allOkProvider samplePod 6 SName.Registered =
      ([SName.Registered, SName.ImagePull, SName.VolumeMount, SName.Starting,
        SName.Running, SName.Finished], some (.ok ())) := by
  refine success_path_end_to_end allOkProvider samplePod
    ?_ ?_ ?_ ?_ ?_ ?_ ?_ ?_ 6 (by decide) <;> exact fun _ => rfl

/-- Claim C2: for every one of the ten declared states, the `phase` field of
the document produced by its status function equals the phase the spec's §4.2
table assigns to it (here `specPhaseTable`). -/
theorem statusPhase_matches_table (s : SName) (pod : Pod) :
    statusPhaseField s pod = some (Json.str (Phase.serialize (specPhaseTable s))) := by
  cases s <;> rfl

/-- Claim C3: for every non-terminal state whose hook fails with any payload,
the step function returns `Ok` of `Transition::Error` at the state's declared
error target — in particular `ImagePull` with a failing `image_pull` hook
yields `Transition::Error(ImagePullBackoff)` and `ImagePullBackoff` with a
failing `image_pull_backoff` hook re-enters itself — and the step never
returns an `Err` of its own. -/
theorem failure_routing {ε : Type} (provider : DefaultStateProvider ε) (pod : Pod) :
    (∀ s : SName, s ≠ SName.Terminated → s ≠ SName.Finished →
      ∀ e : ε, hookOf s provider pod = .error e →
        step s provider pod = .ok (.Error (errorTarget s))) ∧
    (∀ e : ε, provider.image_pull pod = .error e →
      step SName.ImagePull provider pod = .ok (.Error SName.ImagePullBackoff)) ∧
    (∀ e : ε, provider.image_pull_backoff pod = .error e →
      step SName.ImagePullBackoff provider pod = .ok (.Error SName.ImagePullBackoff)) ∧
    (∀ s : SName, ∃ t, step s provider pod = .ok t) := by
  refine ⟨fun s _ _ e h => step_of_hook_error s provider pod e h,
    fun e h => step_of_hook_error SName.ImagePull provider pod e h,
    fun e h => step_of_hook_error SName.ImagePullBackoff provider pod e h,
    fun s => ?_⟩
  rcases hh : hookOf s provider pod with e | v
  · exact ⟨_, step_of_hook_error s provider pod e hh⟩
  · by_cases h1 : s = SName.Terminated
    · subst h1; exact ⟨_, rfl⟩
    · by_cases h2 : s = SName.Finished
      · subst h2; exact ⟨_, rfl⟩
      · obtain ⟨⟩ := v
        exact ⟨_, step_of_hook_ok s provider pod hh h1 h2⟩

/-- Witness for C3: the all-failing capability set routes `ImagePull` to
`ImagePullBackoff` and keeps `ImagePullBackoff` in its self-loop. -/
theorem failure_routing_witness :
    step SName.ImagePull failingProvider samplePod =
      .ok (.Error SName.ImagePullBackoff) ∧
    step SName.ImagePullBackoff failingProvider samplePod =
      .ok (.Error SName.ImagePullBackoff) :=
  ⟨(failure_routing failingProvider samplePod).2.1 () rfl,
   (failure_routing failingProvider samplePod).2.2.1 () rfl⟩

/-- Claim C4 counterexample: `Terminated`'s status document carries reason
"Failed", not the state's name "Terminated", so the reason field does not
equal the state's name for all ten states. -/
theorem statusReason_eq_stateName_cex :
    ¬ statusReasonField SName.Terminated ⟨"test-pod"⟩ =
      some (Json.str (SName.stateName SName.Terminated)) := by
  intro h
  injection h with h1
  injection h1 with h2
  exact absurd h2 (by decide)

/-- Claim C4 (amended): the reason field equals the state's name for the
eight non-terminal states, while `Terminated` and `Finished` both declare the
reason string "Failed". -/
theorem statusReason_amended (s : SName) (pod : Pod) :
    statusReasonField s pod =
      some (Json.str
        (if s = SName.Terminated ∨ s = SName.Finished then "Failed"
          else s.stateName)) := by
  cases s <;> rfl

/-- Claim C5: `Finished`'s status function produces a document whose phase
field is `Succeeded` and whose reason field is the string "Failed". -/
theorem finished_phase_and_reason (pod : Pod) :
    statusPhaseField SName.Finished pod = some (Json.str "Succeeded") ∧
    statusReasonField SName.Finished pod = some (Json.str "Failed") :=
  ⟨rfl, rfl⟩

/-- Claim C6: the step functions of `Terminated` and `Finished` return
`Complete(Ok(()))` unconditionally for every pod and capability set, their
result is independent of the capability set (no hook is invoked), and
repeated driver iterations in either state always return `Complete`. -/
theorem terminal_sinks {ε : Type} (pod : Pod) (p1 p2 : DefaultStateProvider ε) :
    step SName.Terminated p1 pod = .ok (.Complete (.ok ())) ∧
    step SName.Finished p1 pod = .ok (.Complete (.ok ())) ∧
    step SName.Terminated p1 pod = step SName.Terminated p2 pod ∧
    step SName.Finished p1 pod = step SName.Finished p2 pod ∧
    ∀ fuel : Nat, 1 ≤ fuel →
      driveTrace p1 pod fuel SName.Terminated = ([SName.Terminated], some (.ok ())) ∧
      driveTrace p1 pod fuel SName.Finished = ([SName.Finished], some (.ok ())) := by
  refine ⟨rfl, rfl, rfl, rfl, fun fuel h => ?_⟩
  obtain ⟨k, rfl⟩ : ∃ k, fuel = k + 1 := ⟨fuel - 1, by omega⟩
  exact ⟨rfl, rfl⟩

/-- Witness for C6: concrete terminal iterations on a concrete pod complete
immediately. -/
theorem terminal_sinks_witness :
    driveTrace allOkProvider samplePod 3 SName.Terminated =
      ([SName.Terminated], some (.ok ())) ∧
    driveTrace allOkProvider samplePod 3 SName.Finished =
      ([SName.Finished], some (.ok ())) :=
  (terminal_sinks samplePod allOkProvider failingProvider).2.2.2.2 3 (by decide)

/-- Claim C7: the lifecycle graph is closed — every state's advance and error
targets are declared states, and every step result is either `Complete` or a
transition along one of the two statically declared edges. -/
theorem graph_closed {ε : Type} (s : SName) (provider : DefaultStateProvider ε)
    (pod : Pod) :
    (advanceTarget s ∈ declaredStates ∧ errorTarget s ∈ declaredStates) ∧
    ∃ t, step s provider pod = .ok t ∧
      ((∃ r, t = Transition.Complete r) ∨
        t = Transition.Advance (advanceTarget s) ∨
        t = Transition.Error (errorTarget s)) := by
  refine ⟨by cases s <;> simp [declaredStates, advanceTarget, errorTarget], ?_⟩
  rcases hh : hookOf s provider pod with e | v
  · exact ⟨_, step_of_hook_error s provider pod e hh, Or.inr (Or.inr rfl)⟩
  · by_cases h1 : s = SName.Terminated
    · subst h1; exact ⟨_, rfl, Or.inl ⟨_, rfl⟩⟩
    · by_cases h2 : s = SName.Finished
      · subst h2; exact ⟨_, rfl, Or.inl ⟨_, rfl⟩⟩
      · obtain ⟨⟩ := v
        exact ⟨_, step_of_hook_ok s provider pod hh h1 h2, Or.inr (Or.inl rfl)⟩

/-- Claim C8: every state's status function returns `Ok` of a document with
exactly the keys `metadata.resourceVersion` (empty string), `status.phase`
(one of the four defined phases), `status.reason`,
`status.containerStatuses` (empty) and `status.initContainerStatuses`
(empty). -/
theorem status_doc_shape (s : SName) (pod : Pod) :
    ∃ p r, status s pod = .ok (Json.obj
        [("metadata", Json.obj [("resourceVersion", Json.str "")]),
         ("status", Json.obj
           [("phase", Json.str p), ("reason", Json.str r),
            ("containerStatuses", Json.arr []),
            ("initContainerStatuses", Json.arr [])])]) ∧
      (p = "Pending" ∨ p = "Running" ∨ p = "Succeeded" ∨ p = "Failed") := by
  cases s <;> exact ⟨_, _, rfl, by decide⟩

/-- Claim C10: every state's status function is a constant of the pod — any
two invocations on any two pods return identical documents. -/
theorem status_const_of_pod (s : SName) (pod1 pod2 : Pod) :
    status s pod1 = status s pod2 := by
  cases s <;> rfl

end Krustlet
